import Mathlib

/-!
Verification of the federation core of the GITOPS-SCHEMA-FEDERATION-ENTERPRISE
repository: the shared data model (src/core/models.py), the multi-backend
orchestrator (src/core/orchestrator.py), the compatibility-mode transition-risk
table (tests/test_compatibility_transitions.py) and the Iceberg schema-evolution
compatibility algorithm (src/plugins/unity_catalog/plugin.py).

Backends implement the ISchemaRegistry interface (src/core/interfaces.py); here a
backend instance is a record of its interface methods, each returning
`Except RegistryError _` (a Python call that returns normally or raises).
`RegistryError.notFound` stands for the KeyError a plugin raises when a
subject/version/id is absent (HTTP 404); `RegistryError.operationFailed` stands
for every other backend-side exception (network failure, non-404 HTTP error).
-/

namespace GSR

/-- Registry backend types (models.py, class RegistryType). -/
inductive RegistryType where
  | CONFLUENT
  | UNITY_CATALOG
  | AWS_GLUE
  | AZURE_PURVIEW
  | APICURIO
  | KARAPACE
  | PULSAR
  | REDPANDA
  | SNOWFLAKE
  | GCP_DATA_CATALOG
deriving DecidableEq, BEq

/-- Schema formats (models.py, class SchemaFormat). -/
inductive SchemaFormat where
  | AVRO
  | PROTOBUF
  | JSON_SCHEMA
  | ICEBERG
  | PARQUET
  | OPENAPI
  | ASYNCAPI
  | SQL_DDL
deriving DecidableEq, BEq

/-- Compatibility modes (models.py, class CompatibilityMode). The enum has
eight members; the transition-risk table in tests/test_compatibility_transitions.py
covers the seven canonical ones (FORWARD_FULL does not appear there). -/
inductive CompatibilityMode where
  | NONE
  | BACKWARD
  | BACKWARD_TRANSITIVE
  | FORWARD
  | FORWARD_TRANSITIVE
  | FORWARD_FULL
  | FULL
  | FULL_TRANSITIVE
deriving DecidableEq, BEq

/-- Unified schema representation (models.py, dataclass Schema). Creation
timestamp/author and the metadata map play no part in the verified claims and
are omitted. -/
structure Schema where
  subject : String
  version : Int
  schemaFormat : SchemaFormat
  schemaContent : String
  registryType : RegistryType
  id : Option Int := none
deriving DecidableEq

/-- Result of a compatibility check (models.py, dataclass CompatibilityResult). -/
structure CompatibilityResult where
  isCompatible : Bool
  messages : List String
  compatibilityLevel : CompatibilityMode
  errors : List String := []
deriving DecidableEq

/-- Health status of a registry (models.py, dataclass HealthStatus).
response_time_ms is a float in the source; the orchestrator only ever writes 0
into it on the failure path, so a natural number suffices here. The metadata
map is an association list. -/
structure HealthStatus where
  healthy : Bool
  statusCode : Int
  message : String
  responseTimeMs : Nat
  metadata : List (String × String) := []
deriving DecidableEq

/-- One per-(registry, subject) record appended to BulkCheckResult.results
(orchestrator.py, bulk_check_compatibility: the result_dict literals). -/
structure SubjectCheckRecord where
  registryId : String
  subject : String
  isCompatible : Bool
  messages : List String
  errors : List String
deriving DecidableEq

/-- Result of a bulk compatibility check (models.py, dataclass BulkCheckResult).
duration_seconds is wall-clock time, outside the embedding; it is pinned to 0. -/
structure BulkCheckResult where
  totalChecked : Nat
  compatible : Nat
  incompatible : Nat
  errors : Nat
  durationSeconds : Nat
  results : List SubjectCheckRecord
deriving DecidableEq

/-- Outcome of a Python call on a backend: a normal return or a raised
exception. notFound models KeyError (subject/version/id absent, HTTP 404);
operationFailed models every other exception a plugin lets escape. -/
inductive RegistryError where
  | notFound (msg : String)
  | operationFailed (msg : String)
deriving DecidableEq

/-- str(e): the message the orchestrator stores for a caught exception. -/
def RegistryError.toMessage : RegistryError → String
  | .notFound msg => msg
  | .operationFailed msg => msg

/-- A live backend instance: the ISchemaRegistry methods the orchestrator
invokes (interfaces.py), each modelled as a call that returns or raises.
list_subjects takes the optional prefix filter as its argument. -/
structure Registry where
  getLatestSchema : String → Except RegistryError Schema
  listSubjects : Option String → Except RegistryError (List String)
  listVersions : String → Except RegistryError (List Int)
  getSchemaBySubjectVersion : String → Int → Except RegistryError Schema
  checkCompatibility : String → String → SchemaFormat → Int →
      Except RegistryError CompatibilityResult
  healthCheck : Except RegistryError HealthStatus

/- ===== Compatibility transition-risk table ===== -/

/-- Transition risk levels (tests/test_compatibility_transitions.py uses the
strings "SAFE", "RISKY", "DANGEROUS"). -/
inductive RiskLevel where
  | SAFE
  | RISKY
  | DANGEROUS
deriving DecidableEq, BEq

/-- One row of COMPATIBILITY_TRANSITIONS:
(from_mode, to_mode, risk_level, requires_validation, description). -/
structure ModeTransition where
  fromMode : CompatibilityMode
  toMode : CompatibilityMode
  riskLevel : RiskLevel
  requiresValidation : Bool
  description : String
deriving DecidableEq, BEq

/-- The seven modes the transition table ranges over (the `modes` list in
print_transition_matrix and the mode assertions in
test_compatibility_transition). -/
def transitionModes : List CompatibilityMode :=
  [.NONE, .BACKWARD, .BACKWARD_TRANSITIVE, .FORWARD, .FORWARD_TRANSITIVE,
   .FULL, .FULL_TRANSITIVE]

/-- The COMPATIBILITY_TRANSITIONS list
(tests/test_compatibility_transitions.py, lines 216-274), row by row. -/
def COMPATIBILITY_TRANSITIONS : List ModeTransition := [
  -- NONE transitions
  ⟨.NONE, .BACKWARD, .RISKY, true, "NONE allowed breaking changes, BACKWARD requires validation"⟩,
  ⟨.NONE, .BACKWARD_TRANSITIVE, .RISKY, true, "Strictest backward check needed"⟩,
  ⟨.NONE, .FORWARD, .RISKY, true, "Different compatibility direction"⟩,
  ⟨.NONE, .FORWARD_TRANSITIVE, .RISKY, true, "Strictest forward check needed"⟩,
  ⟨.NONE, .FULL, .DANGEROUS, true, "Both directions must be validated"⟩,
  ⟨.NONE, .FULL_TRANSITIVE, .DANGEROUS, true, "Strictest mode - high risk from NONE"⟩,
  -- BACKWARD transitions
  ⟨.BACKWARD, .NONE, .SAFE, false, "Removing restrictions is always safe"⟩,
  ⟨.BACKWARD, .BACKWARD_TRANSITIVE, .SAFE, false, "Adding transitive check is safe"⟩,
  ⟨.BACKWARD, .FORWARD, .DANGEROUS, true, "Opposite compatibility direction"⟩,
  ⟨.BACKWARD, .FORWARD_TRANSITIVE, .DANGEROUS, true, "Opposite + transitive"⟩,
  ⟨.BACKWARD, .FULL, .RISKY, true, "Adds forward compatibility requirement"⟩,
  ⟨.BACKWARD, .FULL_TRANSITIVE, .DANGEROUS, true, "Adds forward + transitive"⟩,
  -- BACKWARD_TRANSITIVE transitions
  ⟨.BACKWARD_TRANSITIVE, .NONE, .SAFE, false, "Removing restrictions"⟩,
  ⟨.BACKWARD_TRANSITIVE, .BACKWARD, .SAFE, false, "Relaxing from transitive to single version"⟩,
  ⟨.BACKWARD_TRANSITIVE, .FORWARD, .DANGEROUS, true, "Complete direction change"⟩,
  ⟨.BACKWARD_TRANSITIVE, .FORWARD_TRANSITIVE, .DANGEROUS, true, "Complete direction change + transitive"⟩,
  ⟨.BACKWARD_TRANSITIVE, .FULL, .DANGEROUS, true, "Adds forward compatibility"⟩,
  ⟨.BACKWARD_TRANSITIVE, .FULL_TRANSITIVE, .DANGEROUS, true, "Adds forward + keeps transitive"⟩,
  -- FORWARD transitions
  ⟨.FORWARD, .NONE, .SAFE, false, "Removing restrictions"⟩,
  ⟨.FORWARD, .BACKWARD, .DANGEROUS, true, "Opposite direction"⟩,
  ⟨.FORWARD, .BACKWARD_TRANSITIVE, .DANGEROUS, true, "Opposite direction + transitive"⟩,
  ⟨.FORWARD, .FORWARD_TRANSITIVE, .SAFE, false, "Adding transitive is safe"⟩,
  ⟨.FORWARD, .FULL, .RISKY, true, "Adds backward compatibility"⟩,
  ⟨.FORWARD, .FULL_TRANSITIVE, .DANGEROUS, true, "Adds backward + transitive"⟩,
  -- FORWARD_TRANSITIVE transitions
  ⟨.FORWARD_TRANSITIVE, .NONE, .SAFE, false, "Removing restrictions"⟩,
  ⟨.FORWARD_TRANSITIVE, .BACKWARD, .DANGEROUS, true, "Opposite direction"⟩,
  ⟨.FORWARD_TRANSITIVE, .BACKWARD_TRANSITIVE, .DANGEROUS, true, "Opposite direction"⟩,
  ⟨.FORWARD_TRANSITIVE, .FORWARD, .SAFE, false, "Relaxing transitive requirement"⟩,
  ⟨.FORWARD_TRANSITIVE, .FULL, .DANGEROUS, true, "Adds backward compatibility"⟩,
  ⟨.FORWARD_TRANSITIVE, .FULL_TRANSITIVE, .RISKY, true, "Adds backward transitive requirement"⟩,
  -- FULL transitions
  ⟨.FULL, .NONE, .SAFE, false, "Removing all restrictions"⟩,
  ⟨.FULL, .BACKWARD, .SAFE, false, "Removing forward requirement"⟩,
  ⟨.FULL, .BACKWARD_TRANSITIVE, .RISKY, true, "Removing forward, adding transitive"⟩,
  ⟨.FULL, .FORWARD, .SAFE, false, "Removing backward requirement"⟩,
  ⟨.FULL, .FORWARD_TRANSITIVE, .RISKY, true, "Removing backward, adding transitive"⟩,
  ⟨.FULL, .FULL_TRANSITIVE, .SAFE, false, "Adding transitive to both directions"⟩,
  -- FULL_TRANSITIVE transitions (all safe - most restrictive mode)
  ⟨.FULL_TRANSITIVE, .NONE, .SAFE, false, "From strictest to most permissive"⟩,
  ⟨.FULL_TRANSITIVE, .BACKWARD, .SAFE, false, "Relaxing forward requirement"⟩,
  ⟨.FULL_TRANSITIVE, .BACKWARD_TRANSITIVE, .SAFE, false, "Relaxing forward requirement"⟩,
  ⟨.FULL_TRANSITIVE, .FORWARD, .SAFE, false, "Relaxing backward requirement"⟩,
  ⟨.FULL_TRANSITIVE, .FORWARD_TRANSITIVE, .SAFE, false, "Relaxing backward requirement"⟩,
  ⟨.FULL_TRANSITIVE, .FULL, .SAFE, false, "Relaxing transitive requirements"⟩]

/-- The classification print_transition_matrix computes for a cell:
"N/A" on the diagonal, the looked-up risk level, or "?" when no row matches. -/
inductive TransitionClass where
  | na
  | risk (level : RiskLevel)
  | unknown
deriving DecidableEq, BEq

/-- Cell of the transition matrix (tests/test_compatibility_transitions.py,
print_transition_matrix): self-transitions are "N/A", otherwise the first
matching row of COMPATIBILITY_TRANSITIONS gives the risk level, "?" if none. -/
def classifyTransition (fromMode toMode : CompatibilityMode) : TransitionClass :=
  if fromMode = toMode then .na
  else
    match COMPATIBILITY_TRANSITIONS.find?
        (fun t => t.fromMode == fromMode && t.toMode == toMode) with
    | some t => .risk t.riskLevel
    | none => .unknown

/-- The table holds exactly one row for (a, b), and that row carries risk
level r with requires_validation = val. -/
def tableClassifies (a b : CompatibilityMode) (r : RiskLevel) (val : Bool) : Bool :=
  COMPATIBILITY_TRANSITIONS.countP (fun t => t.fromMode == a && t.toMode == b) == 1 &&
  COMPATIBILITY_TRANSITIONS.all (fun t =>
    !(t.fromMode == a && t.toMode == b) || (t.riskLevel == r && t.requiresValidation == val))

/-- C4: the transition-risk table classifies exactly the 42 ordered pairs of
distinct modes drawn from the seven table modes, each exactly once with a risk
level (every row's risk level is one of SAFE/RISKY/DANGEROUS by the type of
`ModeTransition.riskLevel`); the matrix classifies every self-pair N/A, and no
ordered pair over the seven modes is left unclassified ("?"). -/
theorem transition_table_complete :
    COMPATIBILITY_TRANSITIONS.length = 42 ∧
    (COMPATIBILITY_TRANSITIONS.all (fun t =>
        transitionModes.contains t.fromMode && transitionModes.contains t.toMode &&
        !(t.fromMode == t.toMode))) = true ∧
    (transitionModes.all (fun a => transitionModes.all (fun b =>
        a == b ||
        COMPATIBILITY_TRANSITIONS.countP
          (fun t => t.fromMode == a && t.toMode == b) == 1))) = true ∧
    (transitionModes.all (fun a => classifyTransition a a == .na)) = true ∧
    (transitionModes.all (fun a => transitionModes.all (fun b =>
        !(classifyTransition a b == .unknown)))) = true := by
  refine ⟨rfl, by decide, by decide, by decide, by decide⟩

/-- C5: for every table mode X other than FULL_TRANSITIVE, the unique row for
FULL_TRANSITIVE → X carries SAFE with requires_validation = false, and the
matrix cell is SAFE. -/
theorem full_transitive_relaxations_safe :
    (transitionModes.all (fun x =>
        x == .FULL_TRANSITIVE ||
        (tableClassifies .FULL_TRANSITIVE x .SAFE false &&
         classifyTransition .FULL_TRANSITIVE x == .risk .SAFE))) = true := by
  decide

/-- The backward-direction family of modes. -/
def backwardFamily : List CompatibilityMode := [.BACKWARD, .BACKWARD_TRANSITIVE]

/-- The forward-direction family of modes. -/
def forwardFamily : List CompatibilityMode := [.FORWARD, .FORWARD_TRANSITIVE]

/-- C6: every ordered pair reversing direction between the backward family and
the forward family, in either order, is classified DANGEROUS with
requires_validation = true by its unique table row. -/
theorem direction_reversal_dangerous :
    (backwardFamily.all (fun a => forwardFamily.all (fun b =>
        tableClassifies a b .DANGEROUS true &&
        tableClassifies b a .DANGEROUS true))) = true := by
  decide

/- ===== Orchestrator: cross-registry operations (orchestrator.py) ===== -/

/-- The orchestrator's live-instance map `active_registries`: a Python dict
keyed by instance id, represented as an association list (dict keys are
unique; insertion order is iteration order). -/
def ActiveRegistries : Type := List (String × Registry)

/-- One entry of the dict query_all returns: {"status": "success", "data": d}
or {"status": "error", "error": str(e)}. -/
inductive QueryOutcome (α : Type) where
  | success (data : α)
  | error (msg : String)
deriving DecidableEq

/-- The entry query_all stores for one instance: success with the returned
data when `getattr(registry, operation)(**kwargs)` returns normally, an error
entry with str(e) when it raises. -/
def queryOutcomeOf {α : Type} : Except RegistryError α → QueryOutcome α
  | .ok data => .success data
  | .error e => .error e.toMessage

/-- query_all (orchestrator.py lines 104-136): invoke the same operation on
every live instance, capturing each instance's success or failure
independently. `call` models `getattr(registry, operation)(**kwargs)` for the
fixed operation name and arguments of one invocation. -/
def queryAll {α : Type} (active : List (String × Registry))
    (call : Registry → Except RegistryError α) : List (String × QueryOutcome α) :=
  active.foldl (fun results p => results ++ [(p.1, queryOutcomeOf (call p.2))]) []

/-- health_check_all's failure path (orchestrator.py lines 204-212): a probing
exception e becomes an unhealthy HealthStatus carrying str(e). -/
def unhealthyFromError (e : RegistryError) : HealthStatus :=
  { healthy := false
    statusCode := 0
    message := "Health check exception: " ++ e.toMessage
    responseTimeMs := 0
    metadata := [("error", e.toMessage)] }

/-- health_check_all (orchestrator.py lines 191-214): probe every instance;
a raising probe is converted into an unhealthy entry instead of propagating. -/
def healthCheckAll (active : List (String × Registry)) : List (String × HealthStatus) :=
  active.foldl (fun results p =>
    match p.2.healthCheck with
    | .ok health => results ++ [(p.1, health)]
    | .error e => results ++ [(p.1, unhealthyFromError e)]) []

/-- find_schema_across_registries (orchestrator.py lines 138-161): collect each
instance's latest schema for the subject; an instance whose get_latest_schema
call raises (any exception - the except clause catches bare Exception) is
silently skipped. -/
def findSchemaAcrossRegistries (active : List (String × Registry))
    (subject : String) : List (String × Schema) :=
  active.foldl (fun results p =>
    match p.2.getLatestSchema subject with
    | .ok schema => results ++ [(p.1, schema)]
    | .error _ => results) []

/-- A loop that appends one entry per element builds the map of the list. -/
theorem foldl_append_singleton {α β : Type} (f : α → β) (l : List α) (init : List β) :
    l.foldl (fun acc x => acc ++ [f x]) init = init ++ l.map f := by
  induction l generalizing init with
  | nil => simp
  | cons h t ih => simp [List.foldl, ih]

/-- Append an optional entry to an accumulator. -/
def appendOption {β : Type} (acc : List β) (o : Option β) : List β :=
  match o with
  | some y => acc ++ [y]
  | none => acc

/-- A loop that appends an optional entry per element builds the filterMap. -/
theorem foldl_append_option {α β : Type} (f : α → Option β) (l : List α) (init : List β) :
    l.foldl (fun acc x => appendOption acc (f x)) init = init ++ l.filterMap f := by
  induction l generalizing init with
  | nil => simp
  | cons h t ih =>
    simp only [List.foldl, List.filterMap_cons, ih]
    cases hf : f h <;> simp [appendOption, hf]

theorem queryAll_eq_map {α : Type} (active : List (String × Registry))
    (call : Registry → Except RegistryError α) :
    queryAll active call = active.map (fun p => (p.1, queryOutcomeOf (call p.2))) := by
  simpa using foldl_append_singleton (fun p => (p.1, queryOutcomeOf (call p.2))) active []

/-- C1: query_all returns exactly one entry per live instance, in the order of
the live-instance map: a success entry holding the returned data when the
instance's method call returns normally, and an error entry holding str(e)
when it raises. In particular the result's size equals the number of live
instances, and one instance's failure neither removes nor alters any other
instance's entry (each entry is a function of its own instance alone). -/
theorem queryAll_isolates_failures {α : Type} (active : List (String × Registry))
    (call : Registry → Except RegistryError α) :
    (queryAll active call).length = active.length ∧
    queryAll active call = active.map (fun p => (p.1, queryOutcomeOf (call p.2))) ∧
    (∀ p ∈ active, ∀ data, call p.2 = .ok data →
        (p.1, QueryOutcome.success data) ∈ queryAll active call) ∧
    (∀ p ∈ active, ∀ e, call p.2 = .error e →
        (p.1, QueryOutcome.error e.toMessage) ∈ queryAll active call) := by
  refine ⟨by rw [queryAll_eq_map]; simp, queryAll_eq_map active call, ?_, ?_⟩
  · intro p hp data hd
    rw [queryAll_eq_map]
    exact List.mem_map.mpr ⟨p, hp, by rw [hd]; rfl⟩
  · intro p hp e he
    rw [queryAll_eq_map]
    exact List.mem_map.mpr ⟨p, hp, by rw [he]; rfl⟩

/- Concrete backend instances used to instantiate the theorems. -/

/-- A sample schema record. -/
def sampleSchema : Schema :=
  { subject := "orders-value"
    version := 2
    schemaFormat := .AVRO
    schemaContent := "avro record User"
    registryType := .CONFLUENT }

/-- A backend that holds no schemas: every lookup raises the not-found
KeyError, listing returns the empty list, the health probe succeeds. -/
def emptyRegistry : Registry where
  getLatestSchema := fun _ => .error (.notFound "subject not found")
  listSubjects := fun _ => .ok []
  listVersions := fun _ => .error (.notFound "subject not found")
  getSchemaBySubjectVersion := fun _ _ => .error (.notFound "version not found")
  checkCompatibility := fun _ _ _ _ => .error (.operationFailed "no checker")
  healthCheck := .ok { healthy := true, statusCode := 200, message := "OK", responseTimeMs := 0 }

/-- A backend whose every call fails with a connection error (the registry is
unreachable), including the health probe and get_latest_schema. -/
def unreachableRegistry : Registry where
  getLatestSchema := fun _ => .error (.operationFailed "connection refused")
  listSubjects := fun _ => .error (.operationFailed "connection refused")
  listVersions := fun _ => .error (.operationFailed "connection refused")
  getSchemaBySubjectVersion := fun _ _ => .error (.operationFailed "connection refused")
  checkCompatibility := fun _ _ _ _ => .error (.operationFailed "connection refused")
  healthCheck := .error (.operationFailed "connection refused")

/-- A backend that returns `sampleSchema` as the latest schema of any subject. -/
def upRegistry : Registry :=
  { emptyRegistry with getLatestSchema := fun _ => .ok sampleSchema }

/-- Witness for C1: with live instances a (raises) and b (succeeds), query_all
returns two entries - an error entry for a and a success entry for b. -/
theorem queryAll_isolates_failures_witness :
    (queryAll [("a", unreachableRegistry), ("b", upRegistry)]
        (fun r => r.getLatestSchema "orders-value")).length = 2 ∧
    ("a", QueryOutcome.error "connection refused") ∈
      queryAll [("a", unreachableRegistry), ("b", upRegistry)]
        (fun r => r.getLatestSchema "orders-value") ∧
    ("b", QueryOutcome.success sampleSchema) ∈
      queryAll [("a", unreachableRegistry), ("b", upRegistry)]
        (fun r => r.getLatestSchema "orders-value") := by
  obtain ⟨hlen, _, hok, herr⟩ :=
    queryAll_isolates_failures [("a", unreachableRegistry), ("b", upRegistry)]
      (fun r => r.getLatestSchema "orders-value")
  refine ⟨hlen.trans rfl, ?_, ?_⟩
  · exact herr ("a", unreachableRegistry) (List.mem_cons_self _ _) _ rfl
  · exact hok ("b", upRegistry) (List.mem_cons_of_mem _ (List.mem_cons_self _ _)) _ rfl

theorem healthCheckAll_eq_map (active : List (String × Registry)) :
    healthCheckAll active = active.map (fun p => (p.1,
      match p.2.healthCheck with
      | .ok health => health
      | .error e => unhealthyFromError e)) := by
  unfold healthCheckAll
  have hstep : (fun (results : List (String × HealthStatus)) (p : String × Registry) =>
      match p.2.healthCheck with
      | .ok health => results ++ [(p.1, health)]
      | .error e => results ++ [(p.1, unhealthyFromError e)]) =
      (fun results p => results ++ [(p.1,
        match p.2.healthCheck with
        | .ok health => health
        | .error e => unhealthyFromError e)]) := by
    funext results p
    cases p.2.healthCheck <;> rfl
  rw [hstep]
  simpa using foldl_append_singleton _ active []

/-- C2: health_check_all returns one HealthStatus entry per live instance and
never fails as a whole (it is total, and its result enumerates the live
instances); an instance whose probe raises e gets the unhealthy entry
(healthy = false) carrying "Health check exception: " ++ str(e) instead of the
exception propagating. -/
theorem healthCheckAll_never_fails (active : List (String × Registry)) :
    (healthCheckAll active).length = active.length ∧
    healthCheckAll active = active.map (fun p => (p.1,
      match p.2.healthCheck with
      | .ok health => health
      | .error e => unhealthyFromError e)) ∧
    (∀ p ∈ active, ∀ e, p.2.healthCheck = .error e →
      (p.1, unhealthyFromError e) ∈ healthCheckAll active ∧
      (unhealthyFromError e).healthy = false ∧
      (unhealthyFromError e).message = "Health check exception: " ++ e.toMessage) := by
  refine ⟨by rw [healthCheckAll_eq_map]; simp, healthCheckAll_eq_map active, ?_⟩
  intro p hp e he
  refine ⟨?_, rfl, rfl⟩
  rw [healthCheckAll_eq_map]
  exact List.mem_map.mpr ⟨p, hp, by rw [he]⟩

/-- Witness for C2: one healthy and one raising instance; the probe of the
raising instance is converted, the healthy one's status is passed through. -/
theorem healthCheckAll_never_fails_witness :
    (healthCheckAll [("a", unreachableRegistry), ("b", upRegistry)]).length = 2 ∧
    ("a", unhealthyFromError (.operationFailed "connection refused")) ∈
      healthCheckAll [("a", unreachableRegistry), ("b", upRegistry)] ∧
    (unhealthyFromError (.operationFailed "connection refused")).healthy = false := by
  obtain ⟨hlen, _, hconv⟩ :=
    healthCheckAll_never_fails [("a", unreachableRegistry), ("b", upRegistry)]
  obtain ⟨hmem, hfalse, _⟩ :=
    hconv ("a", unreachableRegistry) (List.mem_cons_self _ _) _ rfl
  exact ⟨hlen.trans rfl, hmem, hfalse⟩

/-- The entry find_schema_across_registries contributes for one instance:
its latest schema when the call succeeds, nothing when it raises. -/
def latestEntry (subject : String) (p : String × Registry) : Option (String × Schema) :=
  match p.2.getLatestSchema subject with
  | .ok schema => some (p.1, schema)
  | .error _ => none

theorem findSchema_eq_filterMap (active : List (String × Registry)) (subject : String) :
    findSchemaAcrossRegistries active subject = active.filterMap (latestEntry subject) := by
  unfold findSchemaAcrossRegistries
  have hstep : (fun (results : List (String × Schema)) (p : String × Registry) =>
      match p.2.getLatestSchema subject with
      | .ok schema => results ++ [(p.1, schema)]
      | .error _ => results) =
      (fun results p => appendOption results (latestEntry subject p)) := by
    funext results p
    unfold latestEntry appendOption
    cases p.2.getLatestSchema subject <;> rfl
  rw [hstep]
  simpa using foldl_append_option (latestEntry subject) active []

/-- In a list whose first components are unique, two members with equal first
components are the same member. -/
theorem eq_of_fst_eq_of_nodup {α β : Type} {l : List (α × β)}
    (h : (l.map Prod.fst).Nodup) {p q : α × β}
    (hp : p ∈ l) (hq : q ∈ l) (he : p.1 = q.1) : p = q := by
  induction l with
  | nil => cases hp
  | cons x t ih =>
    rw [List.map_cons, List.nodup_cons] at h
    rcases List.mem_cons.mp hp with hp1 | hp2 <;> rcases List.mem_cons.mp hq with hq1 | hq2
    · rw [hp1, hq1]
    · exfalso
      apply h.1
      rw [hp1] at he
      rw [he]
      exact List.mem_map_of_mem Prod.fst hq2
    · exfalso
      apply h.1
      rw [hq1] at he
      rw [← he]
      exact List.mem_map_of_mem Prod.fst hp2
    · exact ih h.2 hp2 hq2

/-- C9 counterexample: an unreachable instance is silently omitted from
find_schema_across_registries although its failure is a connection error, not
a not-found condition - so omission does not imply that the subject is absent,
refuting the claim's "omitted exactly when the subject is absent". -/
theorem findSchema_omission_counterexample :
    findSchemaAcrossRegistries [("a", unreachableRegistry)] "orders-value" = [] ∧
    unreachableRegistry.getLatestSchema "orders-value" =
      .error (.operationFailed "connection refused") := by
  exact ⟨rfl, rfl⟩

/-- C9 as amended: find_schema_across_registries maps each instance whose
get_latest_schema call succeeds to that schema, and omits an instance exactly
when the call fails for any reason - subject absence (notFound) or any other
backend failure; no failure is escalated to the caller (the operation is total
and returns the collected mapping). -/
theorem findSchema_characterization (active : List (String × Registry)) (subject : String) :
    findSchemaAcrossRegistries active subject = active.filterMap (latestEntry subject) ∧
    (∀ p ∈ active, ∀ schema, p.2.getLatestSchema subject = .ok schema →
      (p.1, schema) ∈ findSchemaAcrossRegistries active subject) ∧
    (∀ p ∈ active, ∀ e, p.2.getLatestSchema subject = .error e →
      (active.map Prod.fst).Nodup →
      ∀ schema, (p.1, schema) ∉ findSchemaAcrossRegistries active subject) := by
  refine ⟨findSchema_eq_filterMap active subject, ?_, ?_⟩
  · intro p hp schema hs
    rw [findSchema_eq_filterMap]
    exact List.mem_filterMap.mpr ⟨p, hp, by unfold latestEntry; rw [hs]⟩
  · intro p hp e he hnodup schema hmem
    rw [findSchema_eq_filterMap] at hmem
    obtain ⟨q, hq, hfq⟩ := List.mem_filterMap.mp hmem
    unfold latestEntry at hfq
    rcases hok : q.2.getLatestSchema subject with e' | s'
    · rw [hok] at hfq
      cases hfq
    · rw [hok] at hfq
      have hfq' : some (q.1, s') = some (p.1, schema) := hfq
      have hpair : (q.1, s') = (p.1, schema) := Option.some.inj hfq'
      have hq1 : q.1 = p.1 := (Prod.ext_iff.mp hpair).1
      have hqp : q = p := eq_of_fst_eq_of_nodup hnodup hq hp hq1
      rw [hqp, he] at hok
      cases hok

/-- Witness for the amended C9: with an unreachable instance a and a live
instance b hosting the subject, the mapping contains b's schema and omits a. -/
theorem findSchema_characterization_witness :
    ("b", sampleSchema) ∈
      findSchemaAcrossRegistries [("a", unreachableRegistry), ("b", upRegistry)] "orders-value" ∧
    (∀ schema, ("a", schema) ∉
      findSchemaAcrossRegistries [("a", unreachableRegistry), ("b", upRegistry)] "orders-value") := by
  obtain ⟨_, hok, homit⟩ :=
    findSchema_characterization [("a", unreachableRegistry), ("b", upRegistry)] "orders-value"
  constructor
  · exact hok ("b", upRegistry) (List.mem_cons_of_mem _ (List.mem_cons_self _ _)) _ rfl
  · exact homit ("a", unreachableRegistry) (List.mem_cons_self _ _) _ rfl (by simp)

/- ===== Orchestrator: per-subject transitive compatibility check ===== -/

/-- The message _check_single_subject synthesizes when the per-version check
raises: f"Check failed for version {version}: {str(e)}". -/
def versionFailureMsg (version : Int) (e : RegistryError) : String :=
  "Check failed for version " ++ toString version ++ ": " ++ e.toMessage

/-- Body of the per-version loop of _check_single_subject (orchestrator.py
lines 411-426), on the accumulator (all_compatible, messages): a compatible
result leaves it unchanged, an incompatible result flips the verdict and
extends the messages, and a raising check flips the verdict and appends the
synthesized message - evaluation continues either way. -/
def versionStep (chk : Int → Except RegistryError CompatibilityResult)
    (acc : Bool × List String) (version : Int) : Bool × List String :=
  match chk version with
  | .ok result => if result.isCompatible then acc else (false, acc.2 ++ result.messages)
  | .error e => (false, acc.2 ++ [versionFailureMsg version e])

/-- A list with fewer than 2 elements ruled out is nonempty. -/
theorem ne_nil_of_not_length_lt_two {α : Type} {l : List α} (h : ¬ l.length < 2) :
    l ≠ [] := by
  intro hnil
  subst hnil
  exact h Nat.zero_lt_two

/-- _check_single_subject (orchestrator.py lines 372-441): with fewer than 2
versions the subject is trivially compatible; otherwise the latest schema is
checked against every prior version, collecting failures, and the message
list defaults to "All versions compatible" when nothing was collected. A
raising list_versions or schema fetch yields the outer failure result whose
errors field carries str(e). -/
def checkSingleSubject (registry : Registry) (subject : String)
    (targetMode : CompatibilityMode) : CompatibilityResult :=
  match registry.listVersions subject with
  | .error e =>
    { isCompatible := false, messages := [], compatibilityLevel := targetMode
      errors := [e.toMessage] }
  | .ok versions =>
    if h : versions.length < 2 then
      { isCompatible := true
        messages := ["Single version - no compatibility check needed"]
        compatibilityLevel := targetMode, errors := [] }
    else
      match registry.getSchemaBySubjectVersion subject
          (versions.getLast (ne_nil_of_not_length_lt_two h)) with
      | .error e =>
        { isCompatible := false, messages := [], compatibilityLevel := targetMode
          errors := [e.toMessage] }
      | .ok latest =>
        let r := versions.dropLast.foldl
          (versionStep (fun v => registry.checkCompatibility subject
            latest.schemaContent latest.schemaFormat v)) (true, [])
        { isCompatible := r.1
          messages := if r.2.isEmpty then ["All versions compatible"] else r.2
          compatibilityLevel := targetMode, errors := [] }

/-- Whether one per-version check came back compatible (a raising check does
not). -/
def versionOkBool (chk : Int → Except RegistryError CompatibilityResult)
    (v : Int) : Bool :=
  match chk v with
  | .ok result => result.isCompatible
  | .error _ => false

/-- What one per-version check contributes to the collected message list. -/
def versionMsgs (chk : Int → Except RegistryError CompatibilityResult)
    (v : Int) : List String :=
  match chk v with
  | .ok result => if result.isCompatible then [] else result.messages
  | .error e => [versionFailureMsg v e]

theorem versionStep_eq (chk : Int → Except RegistryError CompatibilityResult)
    (acc : Bool × List String) (v : Int) :
    versionStep chk acc v = (acc.1 && versionOkBool chk v, acc.2 ++ versionMsgs chk v) := by
  obtain ⟨b, m⟩ := acc
  unfold versionStep versionOkBool versionMsgs
  cases chk v with
  | ok result => cases hr : result.isCompatible <;> simp [hr]
  | error e => simp

/-- Concatenation of the per-element contributions. -/
def collectList {α β : Type} (f : α → List β) : List α → List β
  | [] => []
  | x :: t => f x ++ collectList f t

theorem mem_collectList_of_mem {α β : Type} (f : α → List β) {l : List α} {x : α}
    (hx : x ∈ l) {b : β} (hb : b ∈ f x) : b ∈ collectList f l := by
  induction l with
  | nil => cases hx
  | cons y t ih =>
    rcases List.mem_cons.mp hx with h1 | h2
    · exact List.mem_append.mpr (Or.inl (h1 ▸ hb))
    · exact List.mem_append.mpr (Or.inr (ih h2))

theorem collectList_eq_nil {α β : Type} (f : α → List β) {l : List α}
    (h : ∀ x ∈ l, f x = []) : collectList f l = [] := by
  induction l with
  | nil => rfl
  | cons y t ih =>
    simp only [collectList, h y (List.mem_cons_self y t)]
    exact ih (fun x hx => h x (List.mem_cons_of_mem y hx))

/-- The verdict-and-messages loop computes the conjunction of the per-version
verdicts and the concatenation of the per-version messages. -/
theorem foldl_versionStep (chk : Int → Except RegistryError CompatibilityResult)
    (l : List Int) :
    ∀ b m, l.foldl (versionStep chk) (b, m) =
      (b && l.all (versionOkBool chk), m ++ collectList (versionMsgs chk) l) := by
  induction l with
  | nil => intro b m; simp [collectList]
  | cons v t ih =>
    intro b m
    simp only [List.foldl, List.all_cons, collectList, versionStep_eq]
    rw [ih]
    rw [Bool.and_assoc, List.append_assoc]

/-- The per-version check _check_single_subject runs: check_compatibility of
the latest schema's content and format against one prior version. -/
def latestChk (registry : Registry) (subject : String) (latest : Schema)
    (v : Int) : Except RegistryError CompatibilityResult :=
  registry.checkCompatibility subject latest.schemaContent latest.schemaFormat v

theorem versionOkBool_eq_true_iff (chk : Int → Except RegistryError CompatibilityResult)
    (v : Int) :
    versionOkBool chk v = true ↔
      ∃ result, chk v = .ok result ∧ result.isCompatible = true := by
  unfold versionOkBool
  cases hc : chk v with
  | ok result =>
    constructor
    · intro h
      exact ⟨result, rfl, h⟩
    · rintro ⟨result', hr', h⟩
      rw [Except.ok.injEq] at hr'
      rw [← hr'] at h
      exact h
  | error e =>
    constructor
    · intro h
      cases h
    · rintro ⟨result', hr', _⟩
      cases hr'

/-- What checkSingleSubject computes once list_versions returned at least two
versions and the latest schema was fetched: verdict = conjunction of the
per-version verdicts, messages = the collected per-version failure messages,
defaulted when that collection is empty; the errors field stays empty. -/
theorem checkSingleSubject_eq (registry : Registry) (subject : String)
    (targetMode : CompatibilityMode) (vs : List Int) (lastVersion : Int) (latest : Schema)
    (hv : registry.listVersions subject = .ok vs)
    (hlen : 2 ≤ vs.length)
    (hlast : vs.getLast? = some lastVersion)
    (hsch : registry.getSchemaBySubjectVersion subject lastVersion = .ok latest) :
    checkSingleSubject registry subject targetMode =
      { isCompatible := vs.dropLast.all (versionOkBool (latestChk registry subject latest))
        messages :=
          if (collectList (versionMsgs (latestChk registry subject latest)) vs.dropLast).isEmpty
          then ["All versions compatible"]
          else collectList (versionMsgs (latestChk registry subject latest)) vs.dropLast
        compatibilityLevel := targetMode
        errors := [] } := by
  have hl2 : ¬ vs.length < 2 := by omega
  unfold checkSingleSubject
  rw [hv]
  dsimp only
  rw [dif_neg hl2]
  have hgl : vs.getLast (ne_nil_of_not_length_lt_two hl2) = lastVersion := by
    have h2 := List.getLast?_eq_getLast_of_ne_nil (ne_nil_of_not_length_lt_two hl2)
    rw [hlast] at h2
    exact (Option.some.inj h2).symm
  rw [hgl, hsch]
  simp only [foldl_versionStep, latestChk]
  simp
  exact ⟨rfl, rfl⟩

/-- C8 as amended: over a subject with at least 2 listed versions and a
fetchable latest schema, a per-version check that throws is treated as an
incompatibility carrying the synthesized message naming that version - not as
a fatal error (the errors field stays empty) - and evaluation covers every
prior version (the verdict is compatible exactly when every prior version's
check returns a compatible result). The message list defaults to
"All versions compatible" whenever every prior version's check returns
compatible; emptiness of the incompatible set is sufficient but (per the
counterexample) not necessary for the default. -/
theorem checkSingleSubject_failure_handling (registry : Registry) (subject : String)
    (targetMode : CompatibilityMode) (vs : List Int) (lastVersion : Int) (latest : Schema)
    (hv : registry.listVersions subject = .ok vs)
    (hlen : 2 ≤ vs.length)
    (hlast : vs.getLast? = some lastVersion)
    (hsch : registry.getSchemaBySubjectVersion subject lastVersion = .ok latest) :
    (checkSingleSubject registry subject targetMode).errors = [] ∧
    ((checkSingleSubject registry subject targetMode).isCompatible = true ↔
      ∀ v ∈ vs.dropLast, ∃ result, latestChk registry subject latest v = .ok result ∧
        result.isCompatible = true) ∧
    (∀ v ∈ vs.dropLast, ∀ e, latestChk registry subject latest v = .error e →
      (checkSingleSubject registry subject targetMode).isCompatible = false ∧
      versionFailureMsg v e ∈ (checkSingleSubject registry subject targetMode).messages) ∧
    ((∀ v ∈ vs.dropLast, ∃ result, latestChk registry subject latest v = .ok result ∧
        result.isCompatible = true) →
      (checkSingleSubject registry subject targetMode).messages = ["All versions compatible"]) := by
  rw [checkSingleSubject_eq registry subject targetMode vs lastVersion latest hv hlen hlast hsch]
  refine ⟨rfl, ?_, ?_, ?_⟩
  · show (vs.dropLast.all (versionOkBool (latestChk registry subject latest)) = true ↔ _)
    rw [List.all_eq_true]
    exact forall_congr' (fun v => imp_congr_right
      (fun _ => versionOkBool_eq_true_iff (latestChk registry subject latest) v))
  · intro v hvmem e he
    have hmsg : versionMsgs (latestChk registry subject latest) v = [versionFailureMsg v e] := by
      unfold versionMsgs
      rw [he]
    have hmem : versionFailureMsg v e ∈
        collectList (versionMsgs (latestChk registry subject latest)) vs.dropLast :=
      mem_collectList_of_mem _ hvmem (hmsg ▸ List.mem_cons_self _ _)
    constructor
    · show (vs.dropLast.all (versionOkBool (latestChk registry subject latest)) = false)
      cases hall : vs.dropLast.all (versionOkBool (latestChk registry subject latest)) with
      | false => rfl
      | true =>
        exfalso
        have := List.all_eq_true.mp hall v hvmem
        unfold versionOkBool at this
        rw [he] at this
        cases this
    · show versionFailureMsg v e ∈
        (if (collectList (versionMsgs (latestChk registry subject latest)) vs.dropLast).isEmpty
         then ["All versions compatible"]
         else collectList (versionMsgs (latestChk registry subject latest)) vs.dropLast)
      rcases hcol : collectList (versionMsgs (latestChk registry subject latest)) vs.dropLast with
        _ | ⟨x, xs⟩
      · rw [hcol] at hmem
        cases hmem
      · rw [hcol] at hmem
        simpa using hmem
  · intro hall
    have hcol : collectList (versionMsgs (latestChk registry subject latest)) vs.dropLast = [] := by
      apply collectList_eq_nil
      intro v hvmem
      obtain ⟨result, hr, hcomp⟩ := hall v hvmem
      unfold versionMsgs
      rw [hr]
      simp [hcomp]
    rw [hcol]
    rfl

/-- A backend whose subject has two versions and whose per-version check
returns incompatible with an EMPTY message list (the CompatibilityResult
contract does not require messages when is_compatible is false). -/
def quietIncompatibleRegistry : Registry :=
  { emptyRegistry with
    listVersions := fun _ => .ok [1, 2]
    getSchemaBySubjectVersion := fun _ v =>
      if v == 2 then .ok sampleSchema else .error (.notFound "version not found")
    checkCompatibility := fun _ _ _ _ =>
      .ok { isCompatible := false, messages := [], compatibilityLevel := .BACKWARD } }

/-- C8 counterexample: against quietIncompatibleRegistry the prior version 1
is incompatible (the check returns is_compatible = false), yet because that
result carries no messages the collected message list stays empty and the
final messages default to "All versions compatible" - so the default does NOT
imply that the set of incompatible prior versions is empty. -/
theorem checkSingleSubject_default_counterexample :
    (checkSingleSubject quietIncompatibleRegistry "orders-value" .BACKWARD).isCompatible
      = false ∧
    (checkSingleSubject quietIncompatibleRegistry "orders-value" .BACKWARD).messages
      = ["All versions compatible"] ∧
    quietIncompatibleRegistry.listVersions "orders-value" = .ok [1, 2] ∧
    latestChk quietIncompatibleRegistry "orders-value" sampleSchema 1 =
      .ok { isCompatible := false, messages := [], compatibilityLevel := .BACKWARD } := by
  exact ⟨rfl, rfl, rfl, rfl⟩

/-- A backend with three versions whose check of the latest schema against
version 1 raises and against version 2 succeeds compatibly. -/
def flakyRegistry : Registry :=
  { emptyRegistry with
    listVersions := fun _ => .ok [1, 2, 3]
    getSchemaBySubjectVersion := fun _ v =>
      if v == 3 then .ok sampleSchema else .error (.notFound "version not found")
    checkCompatibility := fun _ _ _ v =>
      if v == 1 then .error (.operationFailed "timeout")
      else .ok { isCompatible := true, messages := [], compatibilityLevel := .BACKWARD } }

/-- Witness for the amended C8: the throwing check against version 1 yields an
incompatible verdict with the synthesized message, while the errors field
stays empty and version 2 was still evaluated. -/
theorem checkSingleSubject_failure_handling_witness :
    (checkSingleSubject flakyRegistry "orders-value" .BACKWARD).errors = [] ∧
    (checkSingleSubject flakyRegistry "orders-value" .BACKWARD).isCompatible = false ∧
    versionFailureMsg 1 (.operationFailed "timeout") ∈
      (checkSingleSubject flakyRegistry "orders-value" .BACKWARD).messages := by
  obtain ⟨herr, _, hthrow, _⟩ :=
    checkSingleSubject_failure_handling flakyRegistry "orders-value" .BACKWARD
      [1, 2, 3] 3 sampleSchema rfl (by decide) rfl rfl
  obtain ⟨hfalse, hmem⟩ := hthrow 1 (by decide) (.operationFailed "timeout") rfl
  exact ⟨herr, hfalse, hmem⟩

/- ===== Orchestrator: bulk compatibility check ===== -/

/-- The mutable state of bulk_check_compatibility's loops (orchestrator.py
lines 239-243): all_results, compatible_count, incompatible_count,
error_count, total_checked. -/
structure BulkAcc where
  results : List SubjectCheckRecord
  compatible : Nat
  incompatible : Nat
  errors : Nat
  totalChecked : Nat
deriving DecidableEq

/-- The counters before the loops run. -/
def BulkAcc.init : BulkAcc :=
  { results := [], compatible := 0, incompatible := 0, errors := 0, totalChecked := 0 }

/-- The result_dict appended for one completed check (orchestrator.py lines
274-280). -/
def subjectRecord (registryId subject : String) (result : CompatibilityResult) :
    SubjectCheckRecord :=
  { registryId := registryId, subject := subject
    isCompatible := result.isCompatible, messages := result.messages
    errors := result.errors }

/-- Collection of one completed per-subject check (orchestrator.py lines
267-298): total_checked is incremented, the record appended, and exactly one
of compatible/incompatible incremented. (The collection loop also guards
future.result() with a try/except that would count an error instead, but
_check_single_subject catches every exception itself and always returns a
CompatibilityResult, so the submitted task never raises.) -/
def processSubject (registry : Registry) (targetMode : CompatibilityMode)
    (registryId : String) (acc : BulkAcc) (subject : String) : BulkAcc :=
  let result := checkSingleSubject registry subject targetMode
  { acc with
    totalChecked := acc.totalChecked + 1
    results := acc.results ++ [subjectRecord registryId subject result]
    compatible := if result.isCompatible then acc.compatible + 1 else acc.compatible
    incompatible := if result.isCompatible then acc.incompatible else acc.incompatible + 1 }

/-- Body of the outer registry loop (orchestrator.py lines 245-302): a
requested id not in the live map is skipped with a warning; a raising
list_subjects increments only error_count; otherwise every listed subject is
checked and collected. -/
def processRegistry (active : List (String × Registry)) (targetMode : CompatibilityMode)
    (subjectFilter : Option String) (acc : BulkAcc) (registryId : String) : BulkAcc :=
  match active.lookup registryId with
  | none => acc
  | some registry =>
    match registry.listSubjects subjectFilter with
    | .error _ => { acc with errors := acc.errors + 1 }
    | .ok subjects => subjects.foldl (processSubject registry targetMode registryId) acc

/-- bulk_check_compatibility (orchestrator.py lines 218-313). duration_seconds
is wall-clock time, outside the embedding (pinned to 0); the worker pool's
completion order is modelled as submission order, which the counts and the
record set do not depend on. -/
def bulkCheckCompatibility (active : List (String × Registry))
    (registryIds : List String) (targetMode : CompatibilityMode)
    (subjectFilter : Option String) : BulkCheckResult :=
  let acc := registryIds.foldl (processRegistry active targetMode subjectFilter) BulkAcc.init
  { totalChecked := acc.totalChecked, compatible := acc.compatible
    incompatible := acc.incompatible, errors := acc.errors
    durationSeconds := 0, results := acc.results }

/-- Bump the error counter, leaving everything else unchanged. -/
def BulkAcc.bumpErrors (acc : BulkAcc) (n : Nat) : BulkAcc :=
  { acc with errors := acc.errors + n }

theorem bumpErrors_zero (acc : BulkAcc) : acc.bumpErrors 0 = acc := by
  simp [BulkAcc.bumpErrors]

theorem processSubject_bumpErrors (registry : Registry) (targetMode : CompatibilityMode)
    (registryId : String) (acc : BulkAcc) (n : Nat) (subject : String) :
    processSubject registry targetMode registryId (acc.bumpErrors n) subject =
      (processSubject registry targetMode registryId acc subject).bumpErrors n := by
  simp [processSubject, BulkAcc.bumpErrors]

theorem foldl_processSubject_bumpErrors (registry : Registry)
    (targetMode : CompatibilityMode) (registryId : String) (subjects : List String) :
    ∀ (acc : BulkAcc) (n : Nat),
      subjects.foldl (processSubject registry targetMode registryId) (acc.bumpErrors n) =
        (subjects.foldl (processSubject registry targetMode registryId) acc).bumpErrors n := by
  induction subjects with
  | nil => intro acc n; rfl
  | cons s t ih =>
    intro acc n
    simp only [List.foldl, processSubject_bumpErrors]
    exact ih _ n

theorem processRegistry_bumpErrors (active : List (String × Registry))
    (targetMode : CompatibilityMode) (subjectFilter : Option String)
    (acc : BulkAcc) (n : Nat) (registryId : String) :
    processRegistry active targetMode subjectFilter (acc.bumpErrors n) registryId =
      (processRegistry active targetMode subjectFilter acc registryId).bumpErrors n := by
  unfold processRegistry
  cases active.lookup registryId with
  | none => rfl
  | some registry =>
    dsimp only
    cases registry.listSubjects subjectFilter with
    | error e => simp [BulkAcc.bumpErrors, Nat.add_right_comm]
    | ok subjects =>
      exact foldl_processSubject_bumpErrors registry targetMode registryId subjects acc n

theorem foldl_processRegistry_bumpErrors (active : List (String × Registry))
    (targetMode : CompatibilityMode) (subjectFilter : Option String)
    (ids : List String) :
    ∀ (acc : BulkAcc) (n : Nat),
      ids.foldl (processRegistry active targetMode subjectFilter) (acc.bumpErrors n) =
        (ids.foldl (processRegistry active targetMode subjectFilter) acc).bumpErrors n := by
  induction ids with
  | nil => intro acc n; rfl
  | cons i t ih =>
    intro acc n
    simp only [List.foldl, processRegistry_bumpErrors]
    exact ih _ n

/-- Folding over the requested ids with one failing-listing id removed differs
from the full fold only by error bumps, one per occurrence of that id. -/
theorem foldl_processRegistry_erase_failing (active : List (String × Registry))
    (targetMode : CompatibilityMode) (subjectFilter : Option String)
    (bad : String) (regBad : Registry)
    (hbad : active.lookup bad = some regBad)
    (hfail : ∃ e, regBad.listSubjects subjectFilter = .error e) :
    ∀ (ids : List String) (acc : BulkAcc),
      ids.foldl (processRegistry active targetMode subjectFilter) acc =
        ((ids.filter (fun i => i != bad)).foldl
          (processRegistry active targetMode subjectFilter) acc).bumpErrors
          (ids.count bad) := by
  intro ids
  induction ids with
  | nil => intro acc; simp [bumpErrors_zero]
  | cons i t ih =>
    intro acc
    by_cases hib : i = bad
    · subst hib
      obtain ⟨e, he⟩ := hfail
      have hstep : processRegistry active targetMode subjectFilter acc i =
          acc.bumpErrors 1 := by
        unfold processRegistry
        rw [hbad]
        dsimp only
        rw [he]
        rfl
      have hfilter : (i :: t).filter (fun j => j != i) = t.filter (fun j => j != i) := by
        rw [List.filter_cons]
        simp
      have hcount : (i :: t).count i = t.count i + 1 := by
        simp [List.count_cons]
      rw [hfilter, hcount]
      show (i :: t).foldl (processRegistry active targetMode subjectFilter) acc = _
      rw [List.foldl_cons, hstep]
      rw [foldl_processRegistry_bumpErrors, ih]
      simp [BulkAcc.bumpErrors]
      omega
    · have hfilter : (i :: t).filter (fun j => j != bad) =
          i :: t.filter (fun j => j != bad) := by
        rw [List.filter_cons]
        simp [hib]
      have hcount : (i :: t).count bad = t.count bad := by
        rw [List.count_cons]
        simp [hib]
      rw [hfilter, hcount, List.foldl_cons, List.foldl_cons]
      exact ih _

theorem mem_results_processSubject (registry : Registry) (targetMode : CompatibilityMode)
    (registryId : String) (acc : BulkAcc) (subject : String) {x : SubjectCheckRecord}
    (hx : x ∈ acc.results) :
    x ∈ (processSubject registry targetMode registryId acc subject).results := by
  unfold processSubject
  exact List.mem_append.mpr (Or.inl hx)

theorem mem_results_foldl_processSubject (registry : Registry)
    (targetMode : CompatibilityMode) (registryId : String) (subjects : List String) :
    ∀ (acc : BulkAcc) {x : SubjectCheckRecord}, x ∈ acc.results →
      x ∈ (subjects.foldl (processSubject registry targetMode registryId) acc).results := by
  induction subjects with
  | nil => intro acc x hx; exact hx
  | cons s t ih =>
    intro acc x hx
    exact ih _ (mem_results_processSubject registry targetMode registryId acc s hx)

theorem record_mem_foldl_processSubject (registry : Registry)
    (targetMode : CompatibilityMode) (registryId : String) (subjects : List String) :
    ∀ (acc : BulkAcc), ∀ s ∈ subjects,
      subjectRecord registryId s (checkSingleSubject registry s targetMode) ∈
        (subjects.foldl (processSubject registry targetMode registryId) acc).results := by
  induction subjects with
  | nil => intro acc s hs; cases hs
  | cons s0 t ih =>
    intro acc s hs
    rcases List.mem_cons.mp hs with h1 | h2
    · subst h1
      rw [List.foldl_cons]
      apply mem_results_foldl_processSubject
      unfold processSubject
      exact List.mem_append.mpr (Or.inr (List.mem_cons_self _ _))
    · rw [List.foldl_cons]
      exact ih _ s h2

theorem mem_results_processRegistry (active : List (String × Registry))
    (targetMode : CompatibilityMode) (subjectFilter : Option String)
    (acc : BulkAcc) (registryId : String) {x : SubjectCheckRecord}
    (hx : x ∈ acc.results) :
    x ∈ (processRegistry active targetMode subjectFilter acc registryId).results := by
  unfold processRegistry
  cases active.lookup registryId with
  | none => exact hx
  | some registry =>
    dsimp only
    cases registry.listSubjects subjectFilter with
    | error e => exact hx
    | ok subjects => exact mem_results_foldl_processSubject _ _ _ subjects acc hx

theorem mem_results_foldl_processRegistry (active : List (String × Registry))
    (targetMode : CompatibilityMode) (subjectFilter : Option String)
    (ids : List String) :
    ∀ (acc : BulkAcc) {x : SubjectCheckRecord}, x ∈ acc.results →
      x ∈ (ids.foldl (processRegistry active targetMode subjectFilter) acc).results := by
  induction ids with
  | nil => intro acc x hx; exact hx
  | cons i t ih =>
    intro acc x hx
    exact ih _ (mem_results_processRegistry active targetMode subjectFilter acc i hx)

/-- Every requested registry whose listing succeeds contributes one record per
listed subject to the accumulated results. -/
theorem record_mem_foldl_processRegistry (active : List (String × Registry))
    (targetMode : CompatibilityMode) (subjectFilter : Option String)
    (ids : List String) :
    ∀ (acc : BulkAcc), ∀ rid ∈ ids, ∀ reg, active.lookup rid = some reg →
      ∀ subjects, reg.listSubjects subjectFilter = .ok subjects →
      ∀ s ∈ subjects,
        subjectRecord rid s (checkSingleSubject reg s targetMode) ∈
          (ids.foldl (processRegistry active targetMode subjectFilter) acc).results := by
  induction ids with
  | nil => intro acc rid hrid; cases hrid
  | cons i t ih =>
    intro acc rid hrid reg hreg subjects hsubs s hs
    rcases List.mem_cons.mp hrid with h1 | h2
    · subst h1
      rw [List.foldl_cons]
      apply mem_results_foldl_processRegistry
      unfold processRegistry
      rw [hreg]
      dsimp only
      rw [hsubs]
      exact record_mem_foldl_processSubject reg targetMode rid subjects acc s hs
    · rw [List.foldl_cons]
      exact ih _ rid h2 reg hreg subjects hsubs s hs

/-- C3: if one requested registry's subject listing fails, bulk_check_compatibility
still returns exactly the per-subject records, compatible/incompatible counts
and total of the same run without that registry; the failure contributes only
to the errors count (one bump per occurrence of the failing id). Moreover,
every requested registry whose listing succeeds contributes a record for each
of its listed subjects. -/
theorem bulkCheck_listing_failure_isolated (active : List (String × Registry))
    (registryIds : List String) (targetMode : CompatibilityMode)
    (subjectFilter : Option String) (bad : String) (regBad : Registry) (e : RegistryError)
    (hbad : active.lookup bad = some regBad)
    (hfail : regBad.listSubjects subjectFilter = .error e) :
    (bulkCheckCompatibility active registryIds targetMode subjectFilter).results =
      (bulkCheckCompatibility active (registryIds.filter (fun i => i != bad))
        targetMode subjectFilter).results ∧
    (bulkCheckCompatibility active registryIds targetMode subjectFilter).compatible =
      (bulkCheckCompatibility active (registryIds.filter (fun i => i != bad))
        targetMode subjectFilter).compatible ∧
    (bulkCheckCompatibility active registryIds targetMode subjectFilter).incompatible =
      (bulkCheckCompatibility active (registryIds.filter (fun i => i != bad))
        targetMode subjectFilter).incompatible ∧
    (bulkCheckCompatibility active registryIds targetMode subjectFilter).totalChecked =
      (bulkCheckCompatibility active (registryIds.filter (fun i => i != bad))
        targetMode subjectFilter).totalChecked ∧
    (bulkCheckCompatibility active registryIds targetMode subjectFilter).errors =
      (bulkCheckCompatibility active (registryIds.filter (fun i => i != bad))
        targetMode subjectFilter).errors + registryIds.count bad ∧
    (∀ rid ∈ registryIds, ∀ reg, active.lookup rid = some reg →
      ∀ subjects, reg.listSubjects subjectFilter = .ok subjects →
      ∀ s ∈ subjects,
        subjectRecord rid s (checkSingleSubject reg s targetMode) ∈
          (bulkCheckCompatibility active registryIds targetMode subjectFilter).results) := by
  have h := foldl_processRegistry_erase_failing active targetMode subjectFilter
    bad regBad hbad ⟨e, hfail⟩ registryIds BulkAcc.init
  constructor
  · show (bulkCheckCompatibility active registryIds targetMode subjectFilter).results = _
    unfold bulkCheckCompatibility
    rw [h]
    rfl
  refine ⟨?_, ?_, ?_, ?_, ?_⟩
  · show (bulkCheckCompatibility active registryIds targetMode subjectFilter).compatible = _
    unfold bulkCheckCompatibility
    rw [h]
    rfl
  · show (bulkCheckCompatibility active registryIds targetMode subjectFilter).incompatible = _
    unfold bulkCheckCompatibility
    rw [h]
    rfl
  · show (bulkCheckCompatibility active registryIds targetMode subjectFilter).totalChecked = _
    unfold bulkCheckCompatibility
    rw [h]
    rfl
  · show (bulkCheckCompatibility active registryIds targetMode subjectFilter).errors = _
    unfold bulkCheckCompatibility
    rw [h]
    rfl
  · intro rid hrid reg hreg subjects hsubs s hs
    exact record_mem_foldl_processRegistry active targetMode subjectFilter registryIds
      BulkAcc.init rid hrid reg hreg subjects hsubs s hs

/-- A backend whose subject listing succeeds with one subject and whose
subject has the two versions of quietIncompatibleRegistry. -/
def goodBulkRegistry : Registry :=
  { quietIncompatibleRegistry with listSubjects := fun _ => .ok ["orders-value"] }

/-- A backend whose subject listing raises. -/
def brokenListingRegistry : Registry :=
  { emptyRegistry with listSubjects := fun _ => .error (.operationFailed "list failed") }

/-- Witness for C3: with a working registry g and a registry bad whose listing
fails, the bulk result's records and counts equal those of the run without
bad, bad adds exactly one error, and g's listed subject has its record. -/
theorem bulkCheck_listing_failure_isolated_witness :
    (bulkCheckCompatibility [("g", goodBulkRegistry), ("bad", brokenListingRegistry)]
        ["g", "bad"] .BACKWARD none).results =
      (bulkCheckCompatibility [("g", goodBulkRegistry), ("bad", brokenListingRegistry)]
        (["g", "bad"].filter (fun i => i != "bad")) .BACKWARD none).results ∧
    (bulkCheckCompatibility [("g", goodBulkRegistry), ("bad", brokenListingRegistry)]
        ["g", "bad"] .BACKWARD none).errors =
      (bulkCheckCompatibility [("g", goodBulkRegistry), ("bad", brokenListingRegistry)]
        (["g", "bad"].filter (fun i => i != "bad")) .BACKWARD none).errors +
        ["g", "bad"].count "bad" ∧
    subjectRecord "g" "orders-value"
        (checkSingleSubject goodBulkRegistry "orders-value" .BACKWARD) ∈
      (bulkCheckCompatibility [("g", goodBulkRegistry), ("bad", brokenListingRegistry)]
        ["g", "bad"] .BACKWARD none).results := by
  obtain ⟨hres, _, _, _, herr, hrec⟩ :=
    bulkCheck_listing_failure_isolated
      [("g", goodBulkRegistry), ("bad", brokenListingRegistry)] ["g", "bad"]
      .BACKWARD none "bad" brokenListingRegistry (.operationFailed "list failed") rfl rfl
  refine ⟨hres, herr, ?_⟩
  exact hrec "g" (List.mem_cons_self _ _) goodBulkRegistry rfl ["orders-value"] rfl
    "orders-value" (List.mem_cons_self _ _)

/- ===== Counter invariant of the bulk check (C10) ===== -/

/-- The collection of one completed check adds 1 to total_checked, adds 1 to
exactly one of compatible/incompatible, and leaves error_count alone. -/
theorem processSubject_counts (registry : Registry) (targetMode : CompatibilityMode)
    (registryId : String) (acc : BulkAcc) (subject : String) :
    (processSubject registry targetMode registryId acc subject).compatible +
      (processSubject registry targetMode registryId acc subject).incompatible =
      acc.compatible + acc.incompatible + 1 ∧
    (processSubject registry targetMode registryId acc subject).totalChecked =
      acc.totalChecked + 1 := by
  unfold processSubject
  dsimp only
  cases (checkSingleSubject registry subject targetMode).isCompatible <;> simp <;> omega

/-- The attempted-check balance compatible + incompatible = total_checked is
preserved by collecting one check. -/
theorem processSubject_balance (registry : Registry) (targetMode : CompatibilityMode)
    (registryId : String) (acc : BulkAcc) (subject : String)
    (hinv : acc.compatible + acc.incompatible = acc.totalChecked) :
    (processSubject registry targetMode registryId acc subject).compatible +
      (processSubject registry targetMode registryId acc subject).incompatible =
      (processSubject registry targetMode registryId acc subject).totalChecked := by
  obtain ⟨h1, h2⟩ := processSubject_counts registry targetMode registryId acc subject
  omega

theorem foldl_processSubject_balance (registry : Registry)
    (targetMode : CompatibilityMode) (registryId : String) (subjects : List String) :
    ∀ (acc : BulkAcc), acc.compatible + acc.incompatible = acc.totalChecked →
      (subjects.foldl (processSubject registry targetMode registryId) acc).compatible +
        (subjects.foldl (processSubject registry targetMode registryId) acc).incompatible =
        (subjects.foldl (processSubject registry targetMode registryId) acc).totalChecked := by
  induction subjects with
  | nil => intro acc hinv; exact hinv
  | cons s t ih =>
    intro acc hinv
    exact ih _ (processSubject_balance registry targetMode registryId acc s hinv)

theorem processRegistry_balance (active : List (String × Registry))
    (targetMode : CompatibilityMode) (subjectFilter : Option String)
    (acc : BulkAcc) (registryId : String)
    (hinv : acc.compatible + acc.incompatible = acc.totalChecked) :
    (processRegistry active targetMode subjectFilter acc registryId).compatible +
      (processRegistry active targetMode subjectFilter acc registryId).incompatible =
      (processRegistry active targetMode subjectFilter acc registryId).totalChecked := by
  unfold processRegistry
  cases active.lookup registryId with
  | none => exact hinv
  | some registry =>
    dsimp only
    cases registry.listSubjects subjectFilter with
    | error e => exact hinv
    | ok subjects => exact foldl_processSubject_balance _ _ _ subjects acc hinv

theorem foldl_processRegistry_balance (active : List (String × Registry))
    (targetMode : CompatibilityMode) (subjectFilter : Option String)
    (ids : List String) :
    ∀ (acc : BulkAcc), acc.compatible + acc.incompatible = acc.totalChecked →
      (ids.foldl (processRegistry active targetMode subjectFilter) acc).compatible +
        (ids.foldl (processRegistry active targetMode subjectFilter) acc).incompatible =
        (ids.foldl (processRegistry active targetMode subjectFilter) acc).totalChecked := by
  induction ids with
  | nil => intro acc hinv; exact hinv
  | cons i t ih =>
    intro acc hinv
    exact ih _ (processRegistry_balance active targetMode subjectFilter acc i hinv)

/-- C10: every BulkCheckResult satisfies compatible + incompatible ≤
total_checked and total_checked ≤ compatible + incompatible + errors. In this
embedding compatible + incompatible = total_checked holds exactly (the
submitted task never raises, as _check_single_subject catches everything), and
errors counts registries whose listing failed, whose subjects never entered
total_checked. -/
theorem bulkCheckResult_count_invariant (active : List (String × Registry))
    (registryIds : List String) (targetMode : CompatibilityMode)
    (subjectFilter : Option String) :
    (bulkCheckCompatibility active registryIds targetMode subjectFilter).compatible +
      (bulkCheckCompatibility active registryIds targetMode subjectFilter).incompatible ≤
      (bulkCheckCompatibility active registryIds targetMode subjectFilter).totalChecked ∧
    (bulkCheckCompatibility active registryIds targetMode subjectFilter).totalChecked ≤
      (bulkCheckCompatibility active registryIds targetMode subjectFilter).compatible +
      (bulkCheckCompatibility active registryIds targetMode subjectFilter).incompatible +
      (bulkCheckCompatibility active registryIds targetMode subjectFilter).errors := by
  have hbal := foldl_processRegistry_balance active targetMode subjectFilter
    registryIds BulkAcc.init rfl
  unfold bulkCheckCompatibility
  dsimp only
  omega

/- ===== Iceberg schema-evolution compatibility
       (src/plugins/unity_catalog/plugin.py, _check_iceberg_evolution) ===== -/

/-- One Iceberg field: stable numeric id, name, required flag (the source
reads f.get("required"), absent meaning false) and type string. The source
keys fields by id through a dict; Iceberg field ids are unique within one
schema, so the embedding works on the field lists directly and the theorems
assume that uniqueness. -/
structure IcebergField where
  id : Nat
  name : String
  required : Bool
  type : String
deriving DecidableEq

/-- An Iceberg schema dict: its "fields" list. -/
structure IcebergSchema where
  fields : List IcebergField
deriving DecidableEq

/-- _is_safe_type_promotion (plugin.py lines 708-716): the fixed safe set
{(int, long), (float, double), (date, timestamp)}. -/
def isSafeTypePromotion (oldType newType : String) : Bool :=
  [("int", "long"), ("float", "double"), ("date", "timestamp")].contains (oldType, newType)

/-- Dict lookup by field id (new_fields[field_id] / `field_id in new_fields`). -/
def findFieldById (fields : List IcebergField) (i : Nat) : Option IcebergField :=
  fields.find? (fun f => f.id == i)

/-- Message for a removed required field. -/
def removedRequiredMsg (f : IcebergField) : String :=
  "Required field '" ++ f.name ++ "' (id=" ++ toString f.id ++ ") was removed"

/-- Message for an unsafe type change. -/
def typeChangeMsg (oldField newField : IcebergField) : String :=
  "Incompatible type change for field '" ++ oldField.name ++ "': " ++
    oldField.type ++ " → " ++ newField.type

/-- Message for a nullable field becoming required. -/
def nullabilityMsg (f : IcebergField) : String :=
  "Field '" ++ f.name ++ "' changed from nullable to required"

/-- First pass's trigger: an old field marked required whose id is absent from
the new field set. -/
def removedRequired (newFields : List IcebergField) (f : IcebergField) : Bool :=
  (findFieldById newFields f.id).isNone && f.required

/-- Second pass's trigger: a field present in both whose type changed outside
the safe-promotion set. -/
def badTypeChange (newFields : List IcebergField) (f : IcebergField) : Bool :=
  match findFieldById newFields f.id with
  | some g => f.type != g.type && !(isSafeTypePromotion f.type g.type)
  | none => false

/-- The message the second pass appends (only evaluated when the trigger
fired, so the none branch is arbitrary). -/
def typeChangeMsgFor (newFields : List IcebergField) (f : IcebergField) : String :=
  match findFieldById newFields f.id with
  | some g => typeChangeMsg f g
  | none => ""

/-- Third pass's trigger: a field present in both that was nullable (not
required) in old and is required in new. -/
def tightenedNullability (newFields : List IcebergField) (f : IcebergField) : Bool :=
  match findFieldById newFields f.id with
  | some g => !f.required && g.required
  | none => false

/-- One iteration of any of the three passes: when the trigger fires the
verdict flips to incompatible and the message is appended. -/
def evolutionPass (p : IcebergField → Bool) (msg : IcebergField → String)
    (acc : Bool × List String) (f : IcebergField) : Bool × List String :=
  if p f then (false, acc.2 ++ [msg f]) else acc

/-- _check_iceberg_evolution (plugin.py lines 646-706): three passes over the
old fields - removed required fields, unsafe type changes, nullability
tightening - and the default message when the check stayed compatible and
collected nothing. Fields present only in new are never examined. -/
def checkIcebergEvolution (oldSchema newSchema : IcebergSchema) : Bool × List String :=
  let oldFields := oldSchema.fields
  let newFields := newSchema.fields
  let s1 := oldFields.foldl
    (evolutionPass (removedRequired newFields) removedRequiredMsg) (true, [])
  let s2 := oldFields.foldl
    (evolutionPass (badTypeChange newFields) (typeChangeMsgFor newFields)) s1
  let s3 := oldFields.foldl
    (evolutionPass (tightenedNullability newFields) nullabilityMsg) s2
  (s3.1, if s3.1 && s3.2.isEmpty then s3.2 ++ ["Schema evolution is compatible"] else s3.2)

/-- One pass computes: verdict AND no trigger fired, messages extended by the
messages of the triggering fields in order. -/
theorem foldl_evolutionPass (p : IcebergField → Bool) (msg : IcebergField → String)
    (l : List IcebergField) :
    ∀ acc : Bool × List String,
      l.foldl (evolutionPass p msg) acc =
        (acc.1 && !l.any p, acc.2 ++ (l.filter p).map msg) := by
  induction l with
  | nil => intro acc; simp
  | cons f t ih =>
    intro acc
    rw [List.foldl_cons, List.any_cons, List.filter_cons]
    by_cases hp : p f
    · have h1 : evolutionPass p msg acc f = (false, acc.2 ++ [msg f]) := by
        simp [evolutionPass, hp]
      rw [h1, ih]
      simp [hp]
    · have h1 : evolutionPass p msg acc f = acc := by
        simp [evolutionPass, hp]
      rw [h1, ih]
      simp [hp]

/-- Some old field triggers one of the three incompatibility rules. -/
def evolutionBreaks (oldFields newFields : List IcebergField) : Bool :=
  oldFields.any (removedRequired newFields) ||
  oldFields.any (badTypeChange newFields) ||
  oldFields.any (tightenedNullability newFields)

/-- The messages the three passes collect. -/
def evolutionMessages (oldFields newFields : List IcebergField) : List String :=
  (oldFields.filter (removedRequired newFields)).map removedRequiredMsg ++
  ((oldFields.filter (badTypeChange newFields)).map (typeChangeMsgFor newFields) ++
   (oldFields.filter (tightenedNullability newFields)).map nullabilityMsg)

theorem checkIcebergEvolution_eq (oldSchema newSchema : IcebergSchema) :
    checkIcebergEvolution oldSchema newSchema =
      (!evolutionBreaks oldSchema.fields newSchema.fields,
       if (!evolutionBreaks oldSchema.fields newSchema.fields) &&
           (evolutionMessages oldSchema.fields newSchema.fields).isEmpty
       then evolutionMessages oldSchema.fields newSchema.fields ++
         ["Schema evolution is compatible"]
       else evolutionMessages oldSchema.fields newSchema.fields) := by
  unfold checkIcebergEvolution
  dsimp only
  rw [foldl_evolutionPass, foldl_evolutionPass, foldl_evolutionPass]
  unfold evolutionBreaks evolutionMessages
  simp [Bool.and_assoc, List.append_assoc, Bool.not_or]

theorem removedRequired_eq_true_iff (newFields : List IcebergField) (f : IcebergField) :
    removedRequired newFields f = true ↔
      f.required = true ∧ findFieldById newFields f.id = none := by
  unfold removedRequired
  cases hf : findFieldById newFields f.id <;> simp [hf]

theorem badTypeChange_eq_true_iff (newFields : List IcebergField) (f : IcebergField) :
    badTypeChange newFields f = true ↔
      ∃ g, findFieldById newFields f.id = some g ∧ f.type ≠ g.type ∧
        isSafeTypePromotion f.type g.type = false := by
  unfold badTypeChange
  cases hf : findFieldById newFields f.id with
  | none => simp
  | some g =>
    constructor
    · intro h
      rw [Bool.and_eq_true, bne_iff_ne] at h
      refine ⟨g, rfl, h.1, ?_⟩
      cases hs : isSafeTypePromotion f.type g.type
      · rfl
      · rw [hs] at h
        cases h.2
    · rintro ⟨g', hg', hne, hsafe⟩
      rw [Option.some.injEq] at hg'
      subst hg'
      rw [Bool.and_eq_true, bne_iff_ne]
      exact ⟨hne, by rw [hsafe]; rfl⟩

theorem tightenedNullability_eq_true_iff (newFields : List IcebergField) (f : IcebergField) :
    tightenedNullability newFields f = true ↔
      ∃ g, findFieldById newFields f.id = some g ∧
        f.required = false ∧ g.required = true := by
  unfold tightenedNullability
  cases hf : findFieldById newFields f.id with
  | none => simp
  | some g =>
    constructor
    · intro h
      rw [Bool.and_eq_true] at h
      refine ⟨g, rfl, ?_, h.2⟩
      cases hr : f.required
      · rfl
      · rw [hr] at h
        cases h.1
    · rintro ⟨g', hg', hreq, hgreq⟩
      rw [Option.some.injEq] at hg'
      subst hg'
      rw [Bool.and_eq_true]
      exact ⟨by rw [hreq]; rfl, hgreq⟩

/-- The verdict flips exactly when one of the three rules fires for some old
field. -/
theorem evolutionBreaks_iff (oldFields newFields : List IcebergField) :
    evolutionBreaks oldFields newFields = true ↔
      ((∃ f ∈ oldFields, f.required = true ∧ findFieldById newFields f.id = none) ∨
       (∃ f ∈ oldFields, ∃ g, findFieldById newFields f.id = some g ∧
          f.type ≠ g.type ∧ isSafeTypePromotion f.type g.type = false) ∨
       (∃ f ∈ oldFields, ∃ g, findFieldById newFields f.id = some g ∧
          f.required = false ∧ g.required = true)) := by
  unfold evolutionBreaks
  simp only [Bool.or_eq_true, List.any_eq_true, removedRequired_eq_true_iff,
    badTypeChange_eq_true_iff, tightenedNullability_eq_true_iff]
  exact or_assoc

theorem filter_eq_nil_of_any_eq_false {α : Type} (p : α → Bool) (l : List α)
    (h : l.any p = false) : l.filter p = [] := by
  induction l with
  | nil => rfl
  | cons x t ih =>
    rw [List.any_cons] at h
    have hx : p x = false := by
      cases hpx : p x
      · rfl
      · rw [hpx] at h
        simp at h
    have ht : t.any p = false := by
      cases hta : t.any p
      · rfl
      · rw [hta] at h
        simp at h
    rw [List.filter_cons, hx]
    simpa using ih ht

theorem evolutionMessages_nil (oldFields newFields : List IcebergField)
    (h : evolutionBreaks oldFields newFields = false) :
    evolutionMessages oldFields newFields = [] := by
  unfold evolutionBreaks at h
  rw [Bool.or_eq_false_iff, Bool.or_eq_false_iff] at h
  unfold evolutionMessages
  rw [filter_eq_nil_of_any_eq_false _ _ h.1.1,
    filter_eq_nil_of_any_eq_false _ _ h.1.2,
    filter_eq_nil_of_any_eq_false _ _ h.2]
  rfl

/-- C7: _check_iceberg_evolution returns incompatible exactly when a required
old field is absent from new, or a field present in both changes type outside
the safe-promotion set {int→long, float→double, date→timestamp}, or a field
changes from nullable to required; the removed-required and type-change
triggers each put their naming message into the message list; when nothing
triggers the result is compatible with the single message
"Schema evolution is compatible". Fields present only in new never cause
incompatibility: every trigger quantifies over old fields alone, as the iff
shows. The Nodup hypotheses reflect the uniqueness of Iceberg field ids that
the source's dict keying assumes. -/
theorem icebergEvolution_verdict (oldSchema newSchema : IcebergSchema)
    (hold : (oldSchema.fields.map IcebergField.id).Nodup)
    (hnew : (newSchema.fields.map IcebergField.id).Nodup) :
    ((checkIcebergEvolution oldSchema newSchema).1 = false ↔
      ((∃ f ∈ oldSchema.fields, f.required = true ∧
          findFieldById newSchema.fields f.id = none) ∨
       (∃ f ∈ oldSchema.fields, ∃ g, findFieldById newSchema.fields f.id = some g ∧
          f.type ≠ g.type ∧ isSafeTypePromotion f.type g.type = false) ∨
       (∃ f ∈ oldSchema.fields, ∃ g, findFieldById newSchema.fields f.id = some g ∧
          f.required = false ∧ g.required = true))) ∧
    ((checkIcebergEvolution oldSchema newSchema).1 = true →
      (checkIcebergEvolution oldSchema newSchema).2 = ["Schema evolution is compatible"]) ∧
    (∀ f ∈ oldSchema.fields, f.required = true →
      findFieldById newSchema.fields f.id = none →
      removedRequiredMsg f ∈ (checkIcebergEvolution oldSchema newSchema).2) ∧
    (∀ f ∈ oldSchema.fields, ∀ g, findFieldById newSchema.fields f.id = some g →
      f.type ≠ g.type → isSafeTypePromotion f.type g.type = false →
      typeChangeMsg f g ∈ (checkIcebergEvolution oldSchema newSchema).2) ∧
    (∀ a b : String, isSafeTypePromotion a b = true ↔
      (a, b) ∈ [("int", "long"), ("float", "double"), ("date", "timestamp")]) := by
  rw [checkIcebergEvolution_eq]
  dsimp only
  refine ⟨?_, ?_, ?_, ?_, ?_⟩
  · rw [← evolutionBreaks_iff]
    cases evolutionBreaks oldSchema.fields newSchema.fields <;> simp
  · intro h
    have hb : evolutionBreaks oldSchema.fields newSchema.fields = false := by
      cases hbk : evolutionBreaks oldSchema.fields newSchema.fields
      · rfl
      · rw [hbk] at h
        cases h
    rw [hb, evolutionMessages_nil oldSchema.fields newSchema.fields hb]
    rfl
  · intro f hf hreq hfind
    have hp : removedRequired newSchema.fields f = true :=
      (removedRequired_eq_true_iff newSchema.fields f).mpr ⟨hreq, hfind⟩
    have hmem : removedRequiredMsg f ∈ evolutionMessages oldSchema.fields newSchema.fields := by
      unfold evolutionMessages
      exact List.mem_append.mpr (Or.inl
        (List.mem_map_of_mem _ (List.mem_filter.mpr ⟨hf, hp⟩)))
    rcases hm : evolutionMessages oldSchema.fields newSchema.fields with _ | ⟨m0, ms⟩
    · rw [hm] at hmem
      cases hmem
    · rw [hm] at hmem
      simpa using hmem
  · intro f hf g hfind hne hsafe
    have hp : badTypeChange newSchema.fields f = true :=
      (badTypeChange_eq_true_iff newSchema.fields f).mpr ⟨g, hfind, hne, hsafe⟩
    have hmsg : typeChangeMsgFor newSchema.fields f = typeChangeMsg f g := by
      unfold typeChangeMsgFor
      rw [hfind]
    have hmem : typeChangeMsg f g ∈ evolutionMessages oldSchema.fields newSchema.fields := by
      unfold evolutionMessages
      refine List.mem_append.mpr (Or.inr (List.mem_append.mpr (Or.inl ?_)))
      rw [← hmsg]
      exact List.mem_map_of_mem _ (List.mem_filter.mpr ⟨hf, hp⟩)
    rcases hm : evolutionMessages oldSchema.fields newSchema.fields with _ | ⟨m0, ms⟩
    · rw [hm] at hmem
      cases hmem
    · rw [hm] at hmem
      simpa using hmem
  · intro a b
    simp [isSafeTypePromotion]

/-- Old schema of the witness: required int id plus optional string username. -/
def exOldSchema : IcebergSchema :=
  ⟨[{ id := 1, name := "id", required := true, type := "int" },
    { id := 2, name := "username", required := false, type := "string" }]⟩

/-- New schema of the witness: the id field's type changed int → string. -/
def exNewSchema : IcebergSchema :=
  ⟨[{ id := 1, name := "id", required := true, type := "string" },
    { id := 2, name := "username", required := false, type := "string" }]⟩

/-- Witness for C7: the int → string change of field id 1 makes the evolution
incompatible and the type-change message names the field and both types. -/
theorem icebergEvolution_verdict_witness :
    (checkIcebergEvolution exOldSchema exNewSchema).1 = false ∧
    typeChangeMsg { id := 1, name := "id", required := true, type := "int" }
        { id := 1, name := "id", required := true, type := "string" } ∈
      (checkIcebergEvolution exOldSchema exNewSchema).2 := by
  obtain ⟨hiff, _, _, htype, _⟩ :=
    icebergEvolution_verdict exOldSchema exNewSchema (by decide) (by decide)
  constructor
  · exact hiff.mpr (Or.inr (Or.inl
      ⟨{ id := 1, name := "id", required := true, type := "int" }, by decide,
       { id := 1, name := "id", required := true, type := "string" }, rfl,
       by decide, rfl⟩))
  · exact htype { id := 1, name := "id", required := true, type := "int" } (by decide)
      { id := 1, name := "id", required := true, type := "string" } rfl (by decide) rfl

end GSR
